import Mathlib

/-!
Shallow embedding of the `hf_point_data` point-observation retrieval library
(`src/hf_point_data/utils.py` and `src/hf_point_data/hf_point_data.py`).

Python exceptions are modelled by the `PyError` type and fallible functions
return `Except PyError _`.  Pandas DataFrames are modelled as column stores
(`DataFrame`), with `Cell.na` standing for NaN.  Dates are ISO `YYYY-MM-DD`
strings, whose lexicographic order coincides with chronological order, so the
`np.datetime64` comparisons of the source are string comparisons here.
-/

namespace HfPointData

/-- Python exception kinds raised by this code base: `assert` statements raise
`AssertionError`, explicit `raise ValueError(msg)` carries a message, and
falling off both branches of the `var_id` dispatch in `get_data` leaves
`data_df` unbound (`UnboundLocalError`). -/
inductive PyError where
  | assertionError : PyError
  | valueError : String → PyError
  | unboundLocalError : PyError
deriving DecidableEq, Repr

/-- Whether an `Except` result is an error (a raised exception). -/
def isError {α : Type} : Except PyError α → Bool
  | .error _ => true
  | .ok _ => false

instance {α β : Type} [DecidableEq α] [DecidableEq β] :
    DecidableEq (Except α β) := fun a b =>
  match a, b with
  | .ok x, .ok y =>
    if h : x = y then .isTrue (by rw [h]) else .isFalse (by simp [h])
  | .ok _, .error _ => .isFalse (by simp)
  | .error _, .ok _ => .isFalse (by simp)
  | .error x, .error y =>
    if h : x = y then .isTrue (by rw [h]) else .isFalse (by simp [h])

/-! ## `clean_huc` (utils.py lines 335-362) -/

/-- `utils.clean_huc`: standardize a HUC code string (modelled as a character
list).  Values shorter than 7 characters give `''`; 7- or 11-character values
get a leading `'0'`; any value of length ≥ 8 after padding is truncated to its
first 8 characters.  `none` models the (unreachable) path on which Python's
`cleaned_huc` local would be unbound. -/
def clean_huc (huc : List Char) : Option (List Char) :=
  if huc.length < 7 then
    some []
  else
    let huc2 := if huc.length = 7 ∨ huc.length = 11 then '0' :: huc else huc
    if 8 ≤ huc2.length then some (huc2.take 8)
    else none

/-! ## `check_inputs` (utils.py lines 14-50) -/

/-- Allowed `temporal_resolution` values (utils.py line 40). -/
def temporal_resolution_options : List String :=
  ["daily", "hourly", "instantaneous"]

/-- Allowed `variable` values (utils.py lines 41-43). -/
def variable_options : List String :=
  ["streamflow", "wtd", "swe", "precipitation", "temperature", "soil moisture",
   "latent heat flux", "sensible heat flux", "shortwave radiation",
   "longwave radiation", "vapor pressure deficit", "wind speed"]

/-- Allowed `aggregation` values (utils.py lines 44-45). -/
def aggregation_options : List String :=
  ["average", "instantaneous", "total", "total, snow-adjusted",
   "start-of-day", "accumulated", "minimum", "maximum"]

/-- Allowed `data_source` values (utils.py line 46). -/
def data_source_options : List String :=
  ["usgs_nwis", "usda_nrcs", "ameriflux"]

/-- Allowed soil-moisture `depth_level` values (utils.py line 50). -/
def depth_level_options : List Int := [2, 4, 8, 20, 40]

/-- `utils.check_inputs`: the four `assert`-based enumeration checks, then the
soil-moisture depth-level requirement.  `depth_level = none` models the keyword
argument being absent. -/
def check_inputs (data_source varName temporal_resolution aggregation : String)
    (depth_level : Option Int) : Except PyError Unit :=
  if temporal_resolution ∉ temporal_resolution_options then .error .assertionError
  else if varName ∉ variable_options then .error .assertionError
  else if aggregation ∉ aggregation_options then .error .assertionError
  else if data_source ∉ data_source_options then .error .assertionError
  else if varName = "soil moisture" then
    match depth_level with
    | none => .error .assertionError
    | some d => if d ∉ depth_level_options then .error .assertionError else .ok ()
  else .ok ()

/-! ## DataFrames -/

/-- A pandas cell: NaN, a string, or a numeric value. -/
inductive Cell where
  | na : Cell
  | str : String → Cell
  | num : Int → Cell
deriving DecidableEq, Repr

/-- A pandas DataFrame as a column store: a list of named columns. -/
structure DataFrame where
  cols : List (String × List Cell)
deriving DecidableEq, Repr

/-- Column labels of a DataFrame, in order. -/
def colNames (df : DataFrame) : List String := df.cols.map Prod.fst

/-- Number of rows of a DataFrame (length of its first column). -/
def numRows (df : DataFrame) : Nat :=
  match df.cols with
  | [] => 0
  | c :: _ => c.2.length

/-- `pd.notna` on a single cell. -/
def notna : Cell → Bool
  | .na => false
  | _ => true

/-- Count of non-NaN entries in a column. -/
def count_notna (l : List Cell) : Nat := (l.filter notna).length

/-! ## `filter_min_num_obs` (utils.py lines 398-424) -/

/-- `utils.filter_min_num_obs`: `df.dropna(thresh=min_num_obs, axis=1)` keeps
exactly the columns having at least `min_num_obs` non-NaN entries. -/
def filter_min_num_obs (df : DataFrame) (min_num_obs : Nat) : DataFrame :=
  ⟨df.cols.filter (fun c => decide (min_num_obs ≤ count_notna c.2))⟩

/-- The row-wise filter described by the spec sentence ("a row with N
non-missing values across date columns is retained iff N ≥ threshold"),
stated for comparison with the source's `filter_min_num_obs`. -/
def filter_min_num_obs_rowwise (df : DataFrame) (min_num_obs : Nat) : DataFrame :=
  let dataCols := df.cols.filter (fun c => decide (c.1 ≠ "date"))
  let rowCount := fun (i : Nat) =>
    count_notna (dataCols.filterMap (fun c => c.2.get? i))
  let keep := (List.range (numRows df)).filter
    (fun i => decide (min_num_obs ≤ rowCount i))
  ⟨df.cols.map (fun c => (c.1, keep.filterMap (fun i => c.2.get? i)))⟩

/-! ## `convert_to_pandas` and `get_data_nc` (utils.py lines 365-510) -/

/-- `utils.convert_to_pandas`: the stacked DataSet has per-site series over a
shared date axis; `pd.DataFrame(data.T, columns=sites)` makes one column per
site (rows are dates), `df['date'] = dates` adds the date column, and the
reordering puts it first. -/
def convert_to_pandas (sites dates : List String) (data : List (List Cell)) :
    DataFrame :=
  ⟨("date", dates.map Cell.str) :: sites.zip data⟩

/-- The date-range predicate of `get_data_nc` and `get_data_sql`: keep a date
iff it is ≥ `date_start` (when given) and ≤ `date_end` (when given). -/
def in_range (date_start date_end : Option String) (d : String) : Bool :=
  (match date_start with
   | none => true
   | some s => decide (s ≤ d)) &&
  (match date_end with
   | none => true
   | some e => decide (d ≤ e))

/-- `utils.get_data_nc`: each site's NetCDF series (over the shared `dates`
axis) is subset to the requested time range, the sites are stacked and
converted to a DataFrame, and `filter_min_num_obs` is applied iff
`min_num_obs` was passed. -/
def get_data_nc (site_list : List String) (dates : List String)
    (data : List (List Cell)) (date_start date_end : Option String)
    (min_num_obs : Option Nat) : DataFrame :=
  let dates2 := dates.filter (in_range date_start date_end)
  let data2 := data.map (fun series =>
    ((dates.zip series).filter (fun p => in_range date_start date_end p.1)).map
      Prod.snd)
  let data_df := convert_to_pandas site_list dates2 data2
  match min_num_obs with
  | some m => filter_min_num_obs data_df m
  | none => data_df

/-! ## `get_data_sql` (utils.py lines 513-575) -/

/-- One row of the `wtd_discrete_data` SQL table: a discrete
(site, date, value, pumping status) record. -/
structure WtdRec where
  site_id : String
  date : String
  wtd : Cell
  pumping_status : String
deriving DecidableEq, Repr

/-- `utils.get_data_sql` (var_id 5 only): the SQL query selects the records in
the requested date range whose site has at least `min_num_obs` records inside
that range (the inner sub-select counts per-site records post date filter; the
outer select applies the same date filter).  `min_num_obs` defaults to 1. -/
def get_data_sql (wtd_discrete_data : List WtdRec)
    (date_start date_end : Option String) (min_num_obs : Option Nat) :
    List WtdRec :=
  let m := min_num_obs.getD 1
  let inRange := wtd_discrete_data.filter
    (fun w => in_range date_start date_end w.date)
  inRange.filter (fun w =>
    decide (m ≤ (inRange.filter (fun v => v.site_id == w.site_id)).length))

/-! ## `get_var_id` (utils.py lines 53-112) -/

/-- One row of the `variables` catalog table. -/
structure VariableRow where
  var_id : Nat
  data_source : String
  varName : String
  temporal_resolution : String
  aggregation : String
  depth_level : Option Int
deriving DecidableEq, Repr

/-- The rows of the `variables` table matching the WHERE clause built by
`get_var_id`: `depth_level` participates exactly when the requested variable
is `'soil moisture'`. -/
def variables_query (tbl : List VariableRow)
    (data_source varName temporal_resolution aggregation : String)
    (depth_level : Option Int) : List VariableRow :=
  if varName = "soil moisture" then
    tbl.filter (fun r =>
      r.data_source == data_source && r.varName == varName &&
      r.temporal_resolution == temporal_resolution &&
      r.aggregation == aggregation && r.depth_level == depth_level)
  else
    tbl.filter (fun r =>
      r.data_source == data_source && r.varName == varName &&
      r.temporal_resolution == temporal_resolution &&
      r.aggregation == aggregation)

/-- `utils.get_var_id`: read the first matching `var_id`; an empty result makes
`result['var_id'][0]` raise, which the bare `except` converts to the generic
`ValueError`. -/
def get_var_id (tbl : List VariableRow)
    (data_source varName temporal_resolution aggregation : String)
    (depth_level : Option Int) : Except PyError Nat :=
  match variables_query tbl data_source varName temporal_resolution
      aggregation depth_level with
  | [] => .error (.valueError
      "The provided combination of data_source, variable, temporal_resolution, and aggregation is not currently supported.")
  | r :: _ => .ok r.var_id

/-- Modelled from the spec: the `variables` table lives in the SQLite catalog
database at `/hydrodata/national_obs/point_obs.sqlite`, which is not part of
the repository source.  Its documented rows (var_ids 1-17) are reconstructed
from the spec's fixed integers and the repository test `_get_var_id`
(tests/test_hf_point_data.py); the AmeriFlux rows (var_ids 18-24) have no
documented tuples and are omitted. -/
def variables_table : List VariableRow :=
  [⟨1, "usgs_nwis", "streamflow", "hourly", "average", none⟩,
   ⟨2, "usgs_nwis", "streamflow", "daily", "average", none⟩,
   ⟨3, "usgs_nwis", "wtd", "hourly", "average", none⟩,
   ⟨4, "usgs_nwis", "wtd", "daily", "average", none⟩,
   ⟨5, "usgs_nwis", "wtd", "instantaneous", "instantaneous", none⟩,
   ⟨6, "usda_nrcs", "swe", "daily", "start-of-day", none⟩,
   ⟨7, "usda_nrcs", "precipitation", "daily", "accumulated", none⟩,
   ⟨8, "usda_nrcs", "precipitation", "daily", "total", none⟩,
   ⟨9, "usda_nrcs", "precipitation", "daily", "total, snow-adjusted", none⟩,
   ⟨10, "usda_nrcs", "temperature", "daily", "minimum", none⟩,
   ⟨11, "usda_nrcs", "temperature", "daily", "maximum", none⟩,
   ⟨12, "usda_nrcs", "temperature", "daily", "average", none⟩,
   ⟨13, "usda_nrcs", "soil moisture", "daily", "start-of-day", some 2⟩,
   ⟨14, "usda_nrcs", "soil moisture", "daily", "start-of-day", some 4⟩,
   ⟨15, "usda_nrcs", "soil moisture", "daily", "start-of-day", some 8⟩,
   ⟨16, "usda_nrcs", "soil moisture", "daily", "start-of-day", some 20⟩,
   ⟨17, "usda_nrcs", "soil moisture", "daily", "start-of-day", some 40⟩]

/-! ## `get_network_site_list` (utils.py lines 289-332) -/

/-- The hard-coded `network_options` dictionary: a two-level lookup whose
`KeyError` (unknown data source or variable) is modelled by `none`. -/
def network_options_lookup (data_source varName : String) :
    Option (List String) :=
  if data_source = "usgs_nwis" then
    if varName = "streamflow" then
      some ["camels", "gagesii_reference", "gagesii", "hcdn2009"]
    else if varName = "wtd" then
      some ["climate_response_network"]
    else none
  else none

/-- Whether a requested network name passes the `assert` inside
`get_network_site_list`'s loop body. -/
def network_recognized (data_source varName network : String) : Bool :=
  match network_options_lookup data_source varName with
  | none => false
  | some opts => opts.contains network

/-- The loop of `get_network_site_list`: for each requested network, the
`assert` against `network_options` and the CSV read both happen inside a bare
`try/except` that re-raises the generic `ValueError`; on success the network's
site IDs are appended.  `csv` maps (data_source, variable, network) to the CSV
contents, `none` modelling a missing file. -/
def collect_network_sites (data_source varName : String)
    (csv : String → String → String → Option (List String)) :
    List String → Except PyError (List String)
  | [] => .ok []
  | network :: rest =>
    if network_recognized data_source varName network then
      match csv data_source varName network with
      | some ids =>
        match collect_network_sites data_source varName csv rest with
        | .ok acc => .ok (ids ++ acc)
        | .error e => .error e
      | none => .error (.valueError
          ("Network option " ++ network ++ " is not recognized. Please make sure the .csv network_lists/" ++ data_source ++ "/" ++ varName ++ "/" ++ network ++ ".csv exists."))
    else .error (.valueError
        ("Network option " ++ network ++ " is not recognized. Please make sure the .csv network_lists/" ++ data_source ++ "/" ++ varName ++ "/" ++ network ++ ".csv exists."))

/-- `utils.get_network_site_list`: collect the requested networks' site lists
and return `list(set(site_list))`, modelled as `List.dedup` (Python's `set`
fixes no order; the source comments that order does not matter). -/
def get_network_site_list (data_source varName : String)
    (site_networks : List String)
    (csv : String → String → String → Option (List String)) :
    Except PyError (List String) :=
  match collect_network_sites data_source varName csv site_networks with
  | .ok site_list => .ok site_list.dedup
  | .error e => .error e

/-! ## `get_data` local dispatch (hf_point_data.py lines 92-118) -/

/-- One row of the site catalog as used by `get_data`/`get_metadata`:
identifier, site type, and raw HUC code. -/
structure SiteRow where
  site_id : String
  site_type : String
  huc : String
deriving DecidableEq, Repr

/-- The value returned by `get_data` in local mode: a site-by-date DataFrame
from the NetCDF path, or the discrete records from the SQL path. -/
inductive GetDataResult where
  | nc : DataFrame → GetDataResult
  | sql : List WtdRec → GetDataResult
deriving DecidableEq, Repr

/-- `hf_point_data.get_data`, local mode, from the resolved site list on:
raise on zero sites; `var_id` in `(1,2,3,4)` or `range(6,25)` takes the NetCDF
path, `var_id == 5` the SQL path; any other `var_id` leaves `data_df` unbound
at the `return`. -/
def get_data_local (sites_df : List SiteRow) (var_id : Nat)
    (dates : List String) (data : List (List Cell))
    (wtd_discrete_data : List WtdRec) (date_start date_end : Option String)
    (min_num_obs : Option Nat) : Except PyError GetDataResult :=
  if sites_df.length = 0 then
    .error (.valueError "There are zero sites that satisfy the given parameters.")
  else if var_id ∈ ([1, 2, 3, 4] : List Nat) ∨ (6 ≤ var_id ∧ var_id < 25) then
    .ok (.nc (get_data_nc (sites_df.map (fun s => s.site_id)) dates data
      date_start date_end min_num_obs))
  else if var_id = 5 then
    .ok (.sql (get_data_sql wtd_discrete_data date_start date_end min_num_obs))
  else
    .error .unboundLocalError

/-! ## `get_metadata` local mode (hf_point_data.py lines 151-191) -/

/-- Python string truthiness, as evaluated on the left operand of
`'SNOTEL station' or 'SCAN station' in ...`. -/
def pyTruthyString (s : String) : Bool := !(s == "")

/-- `pd.merge(..., how='left', on='site_id')` against an attribute table that
maps `site_id` to an attribute record: each site keeps its row, with the
attribute value when present. -/
def left_join (site_ids : List String) (attributes : List (String × String)) :
    List (Option String) :=
  site_ids.map (fun s => (attributes.find? (fun p => p.1 == s)).map Prod.snd)

/-- Result of local-mode `get_metadata`: the cleaned HUC8 column and, for each
attribute table, `some` merged column when the corresponding `if` executed. -/
structure GetMetadataResult where
  site_ids : List String
  huc8 : List (Option (List Char))
  streamgauge_attr : Option (List (Option String))
  well_attr : Option (List (Option String))
  snotel_attr : Option (List (Option String))
  flux_attr : Option (List (Option String))
deriving DecidableEq, Repr

/-- `hf_point_data.get_metadata`, local mode, from the resolved site table on:
clean the HUC column, then merge each per-type attribute table when its guard
holds.  The guards on stream gauges, wells and flux towers test membership in
`metadata_df['site_type'].unique()`; the SNOTEL guard is the Python expression
`'SNOTEL station' or 'SCAN station' in ...`, whose truth value is the
truthiness of the non-empty literal `'SNOTEL station'`.  No zero-site check
exists, and SQLite accepts the empty `IN ()` list produced by zero sites, so
no path raises. -/
def get_metadata_local (sites : List SiteRow)
    (streamgauge_attributes well_attributes snotel_station_attributes
      flux_tower_attributes : List (String × String)) :
    Except PyError GetMetadataResult :=
  let site_ids := sites.map (fun s => s.site_id)
  let site_types := (sites.map (fun s => s.site_type)).dedup
  .ok
    { site_ids := site_ids
      huc8 := sites.map (fun s => clean_huc s.huc.toList)
      streamgauge_attr :=
        if site_types.contains "stream gauge" then
          some (left_join site_ids streamgauge_attributes)
        else none
      well_attr :=
        if site_types.contains "groundwater well" then
          some (left_join site_ids well_attributes)
        else none
      snotel_attr :=
        if pyTruthyString "SNOTEL station" || site_types.contains "SCAN station" then
          some (left_join site_ids snotel_station_attributes)
        else none
      flux_attr :=
        if site_types.contains "flux tower" then
          some (left_join site_ids flux_tower_attributes)
        else none }

/-! ## Remote-mode error surface (hf_point_data.py lines 194-275) -/

/-- `_validate_user` together with `get_registered_api_pin`: a missing pin
file, a non-200 response from the pin check, and an expired pin each raise the
generic `ValueError`. -/
def validate_user (pin_registered : Bool) (security_status : Nat)
    (pin_expired : Bool) : Except PyError Unit :=
  if !pin_registered then
    .error (.valueError
      "No email/pin was registered. Use the register_api() method to register the pin you created at the website.")
  else if security_status ≠ 200 then
    .error (.valueError "No registered PIN for this email and PIN. See documentation to register with a URL.")
  else if pin_expired then
    .error (.valueError
      "PIN has expired. Please re-register it from https://hydrogen.princeton.edu/pin")
  else .ok ()

/-- `_get_data_from_api`: validate the user, perform the GET (a timeout and a
non-200 status each raise the generic `ValueError`). -/
def get_data_from_api (pin_registered : Bool) (security_status : Nat)
    (pin_expired : Bool) (timed_out : Bool) (response_status : Nat) :
    Except PyError Unit :=
  match validate_user pin_registered security_status pin_expired with
  | .error e => .error e
  | .ok _ =>
    if timed_out then
      .error (.valueError "The point_data_url has timed out.")
    else if response_status ≠ 200 then
      .error (.valueError "The point_data_url returned an error code.")
    else .ok ()

/-! ## Theorems -/

/-- C2: HUC cleaning returns the empty string for inputs shorter than 7
characters; prepends a leading zero and truncates to 8 characters for inputs
of length 7 or 11; returns the first 8 characters for inputs of length ≥ 8
(other than the 11-character case, which the zero-padding rule captures
first); and in particular returns an 8-character input unchanged. -/
theorem clean_huc_spec (huc : List Char) :
    (huc.length < 7 → clean_huc huc = some [])
    ∧ (huc.length = 7 ∨ huc.length = 11 →
        clean_huc huc = some (('0' :: huc).take 8))
    ∧ (8 ≤ huc.length → huc.length ≠ 11 → clean_huc huc = some (huc.take 8))
    ∧ (huc.length = 8 → clean_huc huc = some huc) := by
  refine ⟨?_, ?_, ?_, ?_⟩
  · intro h
    simp [clean_huc, h]
  · intro h
    have h1 : ¬ huc.length < 7 := by rcases h with h | h <;> omega
    have h2 : 8 ≤ ('0' :: huc).length := by
      simp only [List.length_cons]
      rcases h with h | h <;> omega
    simp [clean_huc, h1, h, h2]
  · intro h8 h11
    have h1 : ¬ huc.length < 7 := by omega
    by_cases h7 : huc.length = 7
    · omega
    · have hcond : ¬ (huc.length = 7 ∨ huc.length = 11) := by
        intro hc
        rcases hc with hc | hc <;> [exact h7 hc; exact h11 hc]
      simp [clean_huc, h1, hcond, h8]
  · intro h
    have h1 : ¬ huc.length < 7 := by omega
    have hcond : ¬ (huc.length = 7 ∨ huc.length = 11) := by omega
    have htake : huc.take 8 = huc := List.take_of_length_le (by omega)
    simp [clean_huc, h1, hcond, htake, h]

/-- Witness for C2: concrete inputs of length 6, 7, 9 and 8. -/
theorem clean_huc_spec_witness :
    clean_huc "123456".toList = some []
    ∧ clean_huc "1234567".toList = some (('0' :: "1234567".toList).take 8)
    ∧ clean_huc "123456789".toList = some ("123456789".toList.take 8)
    ∧ clean_huc "12345678".toList = some "12345678".toList :=
  ⟨(clean_huc_spec _).1 (by decide),
   (clean_huc_spec _).2.1 (Or.inl (by decide)),
   (clean_huc_spec _).2.2.1 (by decide) (by decide),
   (clean_huc_spec _).2.2.2 (by decide)⟩

/-- C5: input validation rejects every soil-moisture request without a valid
depth level in {2, 4, 8, 20, 40}, and every request whose variable, temporal
resolution, aggregation or data source lies outside the supported
enumerations. -/
theorem check_inputs_rejects
    (data_source varName temporal_resolution aggregation : String)
    (depth_level : Option Int)
    (h : (varName = "soil moisture" ∧
            ∀ d ∈ depth_level_options, depth_level ≠ some d)
         ∨ varName ∉ variable_options
         ∨ temporal_resolution ∉ temporal_resolution_options
         ∨ aggregation ∉ aggregation_options
         ∨ data_source ∉ data_source_options) :
    isError (check_inputs data_source varName temporal_resolution aggregation
      depth_level) = true := by
  by_cases ht : temporal_resolution ∈ temporal_resolution_options
  case neg => simp [check_inputs, ht, isError]
  by_cases hv : varName ∈ variable_options
  case neg => simp [check_inputs, ht, hv, isError]
  by_cases ha : aggregation ∈ aggregation_options
  case neg => simp [check_inputs, ht, hv, ha, isError]
  by_cases hs : data_source ∈ data_source_options
  case neg => simp [check_inputs, ht, hv, ha, hs, isError]
  rcases h with ⟨hsm, hd⟩ | hbad | hbad | hbad | hbad
  · cases depth_level with
    | none => simp [check_inputs, ht, hv, ha, hs, hsm, isError]
    | some d =>
      have hdo : d ∉ depth_level_options := fun hm => hd d hm rfl
      simp [check_inputs, ht, hv, ha, hs, hsm, hdo, isError]
  · exact absurd hv hbad
  · exact absurd ht hbad
  · exact absurd ha hbad
  · exact absurd hs hbad

/-- Witness for C5: a soil-moisture request with no depth level is rejected. -/
theorem check_inputs_rejects_witness :
    isError (check_inputs "usda_nrcs" "soil moisture" "daily" "start-of-day"
      none) = true :=
  check_inputs_rejects _ _ _ _ _ (Or.inl ⟨rfl, by decide⟩)

/-- C4: against the documented `variables` catalog, variable-ID resolution
returns the fixed integer of every documented
(data_source, variable, temporal_resolution, aggregation, depth_level) row
(e.g. usgs_nwis/streamflow/daily/average ↦ 2, usgs_nwis/wtd/instantaneous ↦ 5,
soil-moisture depths 2/4/8/20/40 ↦ 13-17), and raises an error on every tuple
matching no catalog row. -/
theorem get_var_id_documented :
    (∀ r ∈ variables_table,
      get_var_id variables_table r.data_source r.varName r.temporal_resolution
        r.aggregation r.depth_level = .ok r.var_id)
    ∧ ∀ ds vn tr ag dl,
        variables_query variables_table ds vn tr ag dl = [] →
        isError (get_var_id variables_table ds vn tr ag dl) = true := by
  constructor
  · decide
  · intro ds vn tr ag dl h
    simp [get_var_id, h, isError]

/-- Witness for C4: usgs_nwis/wtd/instantaneous resolves to 5; an unsupported
temporal resolution raises. -/
theorem get_var_id_documented_witness :
    get_var_id variables_table "usgs_nwis" "wtd" "instantaneous"
      "instantaneous" none = .ok 5
    ∧ isError (get_var_id variables_table "usgs_nwis" "streamflow" "monthly"
        "average" none) = true :=
  ⟨get_var_id_documented.1 ⟨5, "usgs_nwis", "wtd", "instantaneous",
      "instantaneous", none⟩ (by decide),
   get_var_id_documented.2 _ _ _ _ _ (by decide)⟩

/-- C1 counterexample: on a one-row table whose single site column is all-NaN,
the rowwise reading of the claim removes the row (0 non-missing < 1), but
`filter_min_num_obs` (`dropna(axis=1)`) drops the site column and keeps the
row: the two filters disagree, and the retained row count is 1, not 0. -/
theorem filter_min_num_obs_not_rowwise :
    filter_min_num_obs
        ⟨[("date", [Cell.str "2020-01-01"]), ("s1", [Cell.na])]⟩ 1
      ≠ filter_min_num_obs_rowwise
        ⟨[("date", [Cell.str "2020-01-01"]), ("s1", [Cell.na])]⟩ 1
    ∧ numRows (filter_min_num_obs
        ⟨[("date", [Cell.str "2020-01-01"]), ("s1", [Cell.na])]⟩ 1) = 1
    ∧ numRows (filter_min_num_obs_rowwise
        ⟨[("date", [Cell.str "2020-01-01"]), ("s1", [Cell.na])]⟩ 1) = 0 := by
  decide

/-- C1 amended: minimum-observation filtering retains a COLUMN (sites are
columns of the observations table) iff that column has at least `min_num_obs`
non-missing entries, rows are untouched; and in `get_data_nc` the filter is
applied to the table already subset to the requested time range. -/
theorem filter_min_num_obs_columnwise :
    (∀ (df : DataFrame) (m : Nat) (c : String × List Cell),
        c ∈ (filter_min_num_obs df m).cols ↔
          c ∈ df.cols ∧ m ≤ count_notna c.2)
    ∧ ∀ site_list dates data date_start date_end m,
        get_data_nc site_list dates data date_start date_end (some m)
          = filter_min_num_obs
              (get_data_nc site_list dates data date_start date_end none) m := by
  constructor
  · intro df m c
    simp [filter_min_num_obs, List.mem_filter]
  · intro site_list dates data date_start date_end m
    rfl

/-- C3 counterexample: for an array-backed variable (var_id 2) with three
sites and one date, the returned table has one row (the date) and four columns
(`date` plus the three site identifiers) — rows are dates and columns are
sites, not the other way around as the claim states. -/
theorem get_data_orientation_counterexample :
    get_data_local
        [⟨"s1", "stream gauge", "01010101"⟩, ⟨"s2", "stream gauge", "01010101"⟩,
         ⟨"s3", "stream gauge", "01010101"⟩] 2 ["2020-01-01"]
        [[Cell.num 1], [Cell.num 2], [Cell.num 3]] [] none none none
      = .ok (.nc ⟨[("date", [Cell.str "2020-01-01"]),
                   ("s1", [Cell.num 1]), ("s2", [Cell.num 2]),
                   ("s3", [Cell.num 3])]⟩)
    ∧ numRows ⟨[("date", [Cell.str "2020-01-01"]),
         ("s1", [Cell.num 1]), ("s2", [Cell.num 2]), ("s3", [Cell.num 3])]⟩ = 1
    ∧ (1 : Nat) ≠ 3
    ∧ colNames ⟨[("date", [Cell.str "2020-01-01"]),
         ("s1", [Cell.num 1]), ("s2", [Cell.num 2]), ("s3", [Cell.num 3])]⟩
        ≠ ["date", "2020-01-01"] := by
  decide

/-- C3 amended: with a non-empty site list, variable IDs 1-4 and 6-24 take the
NetCDF path and return a table whose columns are `date` followed by the site
identifiers and whose rows are the dates inside the requested range, while
variable ID 5 takes the SQL path and returns the discrete
(site, date, value, status) records lying in the requested range. -/
theorem get_data_result_shape
    (sites_df : List SiteRow) (var_id : Nat) (dates : List String)
    (data : List (List Cell)) (wtd_discrete_data : List WtdRec)
    (date_start date_end : Option String) (min_num_obs : Option Nat)
    (hne : sites_df ≠ [])
    (hdata : data.length = sites_df.length) :
    (var_id ∈ ([1, 2, 3, 4] : List Nat) ∨ (6 ≤ var_id ∧ var_id < 25) →
      get_data_local sites_df var_id dates data wtd_discrete_data date_start
          date_end min_num_obs
        = .ok (.nc (get_data_nc (sites_df.map (fun s => s.site_id)) dates data
            date_start date_end min_num_obs))
      ∧ colNames (get_data_nc (sites_df.map (fun s => s.site_id)) dates data
            date_start date_end none)
        = "date" :: sites_df.map (fun s => s.site_id)
      ∧ numRows (get_data_nc (sites_df.map (fun s => s.site_id)) dates data
            date_start date_end none)
        = (dates.filter (in_range date_start date_end)).length)
    ∧ (var_id = 5 →
      get_data_local sites_df var_id dates data wtd_discrete_data date_start
          date_end min_num_obs
        = .ok (.sql (get_data_sql wtd_discrete_data date_start date_end
            min_num_obs))
      ∧ ∀ r ∈ get_data_sql wtd_discrete_data date_start date_end min_num_obs,
          r ∈ wtd_discrete_data ∧ in_range date_start date_end r.date = true) := by
  have hlen : ¬ sites_df.length = 0 := by
    simpa [List.length_eq_zero] using hne
  constructor
  · intro hvar
    refine ⟨by unfold get_data_local; rw [if_neg hlen, if_pos hvar], ?_, ?_⟩
    · simp only [get_data_nc, convert_to_pandas, colNames, List.map_cons,
        List.cons.injEq, true_and]
      apply List.map_fst_zip
      simp [hdata]
    · simp [get_data_nc, convert_to_pandas, numRows]
  · intro h5
    subst h5
    have hvar : ¬ ((5 : Nat) ∈ ([1, 2, 3, 4] : List Nat) ∨
        (6 ≤ (5 : Nat) ∧ (5 : Nat) < 25)) := by decide
    refine ⟨(by unfold get_data_local; rw [if_neg hlen, if_neg hvar, if_pos rfl]), ?_⟩
    intro r hr
    simp only [get_data_sql, List.mem_filter, decide_eq_true_eq] at hr
    exact ⟨hr.1.1, hr.1.2⟩

/-- Witness for C3 amended: concrete nc dispatch (var_id 2) and sql dispatch
(var_id 5) on a one-site catalog. -/
theorem get_data_result_shape_witness :
    get_data_local [⟨"s1", "stream gauge", "01010101"⟩] 5 [] [[]] [] none none
        none
      = .ok (.sql (get_data_sql [] none none none)) :=
  ((get_data_result_shape [⟨"s1", "stream gauge", "01010101"⟩] 5 [] [[]] []
      none none none (by decide) (by decide)).2 rfl).1

/-- C6 counterexample: local-mode `get_metadata` on zero matching sites does
not raise — it returns an (empty-site) result, with the SNOTEL attribute table
still merged. -/
theorem get_metadata_zero_sites_ok :
    get_metadata_local [] [] [] [] []
      = .ok ⟨[], [], none, none, some [], none⟩
    ∧ isError (get_metadata_local [] [] [] [] []) = false := by
  decide

/-- C6 amended: in local mode, `get_data` raises immediately when the resolved
site list is empty, surfacing the zero-sites error to the caller with no
recovery; `get_metadata` performs no zero-site check and never raises. -/
theorem zero_sites_error_behavior :
    (∀ var_id dates data wtd_discrete_data date_start date_end min_num_obs,
      get_data_local [] var_id dates data wtd_discrete_data date_start
          date_end min_num_obs
        = .error (.valueError
            "There are zero sites that satisfy the given parameters."))
    ∧ ∀ sites sg w sn fl,
        isError (get_metadata_local sites sg w sn fl) = false := by
  constructor
  · intro var_id dates data wtd_discrete_data date_start date_end min_num_obs
    rfl
  · intro sites sg w sn fl
    rfl

/-- C9: in every local-mode `get_metadata` result the SNOTEL station attribute
table is merged unconditionally (the Python guard
`'SNOTEL station' or 'SCAN station' in ...` is the truthiness of the non-empty
literal, hence always true), while the stream-gauge, groundwater-well, and
flux-tower merges happen exactly when a site of that type is present. -/
theorem snotel_merge_unconditional
    (sites : List SiteRow) (sg w sn fl : List (String × String))
    (res : GetMetadataResult)
    (h : get_metadata_local sites sg w sn fl = .ok res) :
    res.snotel_attr
      = some (left_join (sites.map (fun s => s.site_id)) sn)
    ∧ (res.streamgauge_attr.isSome = true ↔
        "stream gauge" ∈ sites.map (fun s => s.site_type))
    ∧ (res.well_attr.isSome = true ↔
        "groundwater well" ∈ sites.map (fun s => s.site_type))
    ∧ (res.flux_attr.isSome = true ↔
        "flux tower" ∈ sites.map (fun s => s.site_type)) := by
  have hres : res =
      { site_ids := sites.map (fun s => s.site_id)
        huc8 := sites.map (fun s => clean_huc s.huc.toList)
        streamgauge_attr :=
          if ((sites.map (fun s => s.site_type)).dedup).contains "stream gauge"
          then some (left_join (sites.map (fun s => s.site_id)) sg) else none
        well_attr :=
          if ((sites.map (fun s => s.site_type)).dedup).contains
              "groundwater well"
          then some (left_join (sites.map (fun s => s.site_id)) w) else none
        snotel_attr :=
          if pyTruthyString "SNOTEL station" ||
              ((sites.map (fun s => s.site_type)).dedup).contains "SCAN station"
          then some (left_join (sites.map (fun s => s.site_id)) sn) else none
        flux_attr :=
          if ((sites.map (fun s => s.site_type)).dedup).contains "flux tower"
          then some (left_join (sites.map (fun s => s.site_id)) fl)
          else none } := by
    have := h.symm
    simpa [get_metadata_local] using this
  subst hres
  refine ⟨?_, ?_, ?_, ?_⟩
  · simp [pyTruthyString]
  · by_cases hmem : "stream gauge" ∈ sites.map (fun s => s.site_type) <;>
      simp [hmem, List.elem_iff]
  · by_cases hmem : "groundwater well" ∈ sites.map (fun s => s.site_type) <;>
      simp [hmem, List.elem_iff]
  · by_cases hmem : "flux tower" ∈ sites.map (fun s => s.site_type) <;>
      simp [hmem, List.elem_iff]

/-- Witness for C9: a catalog with a single stream gauge — no SNOTEL or SCAN
site — still gets the SNOTEL attribute merge. -/
theorem snotel_merge_unconditional_witness :
    (⟨["g1"], [clean_huc "01010101".toList], some [none], none, some [none],
        none⟩ : GetMetadataResult).snotel_attr
      = some (left_join (([⟨"g1", "stream gauge", "01010101"⟩] :
          List SiteRow).map (fun s => s.site_id)) []) :=
  (snotel_merge_unconditional [⟨"g1", "stream gauge", "01010101"⟩] [] [] [] []
    ⟨["g1"], [clean_huc "01010101".toList], some [none], none, some [none],
      none⟩ (by decide)).1

/-- Every error produced by `validate_user` is a `ValueError`. -/
lemma validate_user_error_kind (pin_registered : Bool) (security_status : Nat)
    (pin_expired : Bool) :
    validate_user pin_registered security_status pin_expired = .ok ()
    ∨ ∃ msg, validate_user pin_registered security_status pin_expired
        = .error (.valueError msg) := by
  unfold validate_user
  split_ifs
  · exact Or.inr ⟨_, rfl⟩
  · exact Or.inr ⟨_, rfl⟩
  · exact Or.inr ⟨_, rfl⟩
  · exact Or.inl rfl

/-- Every error produced by the network-collection loop is a `ValueError`. -/
lemma collect_network_sites_error_kind (data_source varName : String)
    (csv : String → String → String → Option (List String)) :
    ∀ site_networks,
      (∃ l, collect_network_sites data_source varName csv site_networks
          = .ok l)
      ∨ ∃ msg, collect_network_sites data_source varName csv site_networks
          = .error (.valueError msg)
  | [] => Or.inl ⟨[], rfl⟩
  | network :: rest => by
    unfold collect_network_sites
    by_cases hrec : network_recognized data_source varName network
    · rw [if_pos hrec]
      cases hcsv : csv data_source varName network with
      | none => exact Or.inr ⟨_, rfl⟩
      | some ids =>
        rcases collect_network_sites_error_kind data_source varName csv rest
            with ⟨l, hl⟩ | ⟨msg, hm⟩
        · rw [hl]
          exact Or.inl ⟨_, rfl⟩
        · rw [hm]
          exact Or.inr ⟨_, rfl⟩
    · rw [if_neg hrec]
      exact Or.inr ⟨_, rfl⟩

/-- C7 counterexample: a misspelled variable fails input validation with an
`AssertionError` (a bare Python `assert`), while an unsupported resolution
tuple raises a `ValueError` — two distinct exception types, so the errors are
not all of a single kind. -/
theorem error_kind_mismatch :
    check_inputs "usgs_nwis" "steamflow" "daily" "average" none
      = .error .assertionError
    ∧ get_var_id variables_table "usgs_nwis" "streamflow" "monthly" "average"
        none
      = .error (.valueError
          "The provided combination of data_source, variable, temporal_resolution, and aggregation is not currently supported.")
    ∧ PyError.assertionError
      ≠ PyError.valueError
          "The provided combination of data_source, variable, temporal_resolution, and aggregation is not currently supported." := by
  decide

/-- C7 amended: there is no structured error taxonomy, but the surfaced errors
come in two generic kinds, not one: input-validation failures (bare `assert`)
surface as `AssertionError`, while every explicitly raised error — unsupported
variable-ID tuple, zero matching sites, unrecognized network, missing or
expired credentials, non-200 HTTP response, timeout — is a plain
`ValueError`. -/
theorem error_kinds_amended :
    (∀ ds vn tr ag dl, check_inputs ds vn tr ag dl = .ok ()
        ∨ check_inputs ds vn tr ag dl = .error .assertionError)
    ∧ (∀ tbl ds vn tr ag dl, (∃ n, get_var_id tbl ds vn tr ag dl = .ok n)
        ∨ ∃ msg, get_var_id tbl ds vn tr ag dl = .error (.valueError msg))
    ∧ (∀ pin_registered security_status pin_expired timed_out response_status,
        get_data_from_api pin_registered security_status pin_expired timed_out
            response_status = .ok ()
        ∨ ∃ msg, get_data_from_api pin_registered security_status pin_expired
            timed_out response_status = .error (.valueError msg))
    ∧ (∀ ds vn site_networks csv,
        (∃ l, get_network_site_list ds vn site_networks csv = .ok l)
        ∨ ∃ msg, get_network_site_list ds vn site_networks csv
            = .error (.valueError msg))
    ∧ (∀ sites_df var_id dates data wtd_discrete_data date_start date_end
          min_num_obs,
        1 ≤ var_id → var_id ≤ 24 →
        (∃ r, get_data_local sites_df var_id dates data wtd_discrete_data
            date_start date_end min_num_obs = .ok r)
        ∨ get_data_local sites_df var_id dates data wtd_discrete_data
            date_start date_end min_num_obs
          = .error (.valueError
              "There are zero sites that satisfy the given parameters.")) := by
  refine ⟨?_, ?_, ?_, ?_, ?_⟩
  · intro ds vn tr ag dl
    unfold check_inputs
    by_cases c1 : tr ∉ temporal_resolution_options
    · rw [if_pos c1]; exact Or.inr rfl
    rw [if_neg c1]
    by_cases c2 : vn ∉ variable_options
    · rw [if_pos c2]; exact Or.inr rfl
    rw [if_neg c2]
    by_cases c3 : ag ∉ aggregation_options
    · rw [if_pos c3]; exact Or.inr rfl
    rw [if_neg c3]
    by_cases c4 : ds ∉ data_source_options
    · rw [if_pos c4]; exact Or.inr rfl
    rw [if_neg c4]
    by_cases c5 : vn = "soil moisture"
    · rw [if_pos c5]
      cases dl with
      | none => exact Or.inr rfl
      | some d =>
        by_cases c6 : d ∉ depth_level_options
        · exact Or.inr (if_pos c6)
        · exact Or.inl (if_neg c6)
    · rw [if_neg c5]; exact Or.inl rfl
  · intro tbl ds vn tr ag dl
    unfold get_var_id
    cases variables_query tbl ds vn tr ag dl with
    | nil => exact Or.inr ⟨_, rfl⟩
    | cons r rest => exact Or.inl ⟨_, rfl⟩
  · intro pin_registered security_status pin_expired timed_out response_status
    unfold get_data_from_api
    rcases validate_user_error_kind pin_registered security_status pin_expired
        with hok | ⟨msg, herr⟩
    · rw [hok]
      split_ifs
      · exact Or.inr ⟨_, rfl⟩
      · exact Or.inr ⟨_, rfl⟩
      · exact Or.inl rfl
    · rw [herr]
      exact Or.inr ⟨_, rfl⟩
  · intro ds vn site_networks csv
    unfold get_network_site_list
    rcases collect_network_sites_error_kind ds vn csv site_networks
        with ⟨l, hl⟩ | ⟨msg, hm⟩
    · rw [hl]
      exact Or.inl ⟨_, rfl⟩
    · rw [hm]
      exact Or.inr ⟨_, rfl⟩
  · intro sites_df var_id dates data wtd_discrete_data date_start date_end
      min_num_obs h1 h24
    by_cases hz : sites_df.length = 0
    · right
      unfold get_data_local
      rw [if_pos hz]
    · left
      unfold get_data_local
      rw [if_neg hz]
      interval_cases var_id <;>
        first
          | exact ⟨.nc (get_data_nc (sites_df.map (fun s => s.site_id)) dates
              data date_start date_end min_num_obs),
              by rw [if_pos (by decide)]⟩
          | exact ⟨.sql (get_data_sql wtd_discrete_data date_start date_end
              min_num_obs),
              by rw [if_neg (by decide), if_pos (by decide)]⟩

/-- Witness for C7 amended: a one-site catalog with a supported variable ID
yields a non-error result. -/
theorem error_kinds_amended_witness :
    (∃ r, get_data_local [⟨"s1", "stream gauge", "01010101"⟩] 2 [] [] [] none
        none none = .ok r)
    ∨ get_data_local [⟨"s1", "stream gauge", "01010101"⟩] 2 [] [] [] none none
        none
      = .error (.valueError
          "There are zero sites that satisfy the given parameters.") :=
  error_kinds_amended.2.2.2.2 [⟨"s1", "stream gauge", "01010101"⟩] 2 [] [] []
    none none none (by decide) (by decide)

/-- Membership in a successful network-collection result: a site ID is
collected iff it lies in the CSV list of one of the requested networks. -/
lemma collect_network_sites_mem (data_source varName : String)
    (csv : String → String → String → Option (List String)) :
    ∀ (site_networks : List String) (site_list : List String),
      collect_network_sites data_source varName csv site_networks
        = .ok site_list →
      ∀ s, s ∈ site_list ↔
        ∃ network ∈ site_networks, ∃ ids,
          csv data_source varName network = some ids ∧ s ∈ ids := by
  intro site_networks
  induction site_networks with
  | nil =>
    intro site_list h s
    simp only [collect_network_sites, Except.ok.injEq] at h
    subst h
    simp
  | cons network rest ih =>
    intro site_list h s
    unfold collect_network_sites at h
    by_cases hrec : network_recognized data_source varName network
    · rw [if_pos hrec] at h
      cases hcsv : csv data_source varName network with
      | none =>
        rw [hcsv] at h
        exact Except.noConfusion h
      | some ids =>
        rw [hcsv] at h
        cases hcol : collect_network_sites data_source varName csv rest with
        | error e =>
          rw [hcol] at h
          exact Except.noConfusion h
        | ok acc =>
          rw [hcol] at h
          injection h with h
          subst h
          constructor
          · intro hs
            rcases List.mem_append.mp hs with h1 | h2
            · exact ⟨network, List.mem_cons_self _ _, ids, hcsv, h1⟩
            · obtain ⟨n, hn, ids', hids', hs'⟩ := (ih acc hcol s).mp h2
              exact ⟨n, List.mem_cons_of_mem _ hn, ids', hids', hs'⟩
          · rintro ⟨n, hn, ids', hids', hs'⟩
            rcases List.mem_cons.mp hn with rfl | hn'
            · rw [hcsv] at hids'
              injection hids' with he
              subst he
              exact List.mem_append.mpr (Or.inl hs')
            · exact List.mem_append.mpr
                (Or.inr ((ih acc hcol s).mpr ⟨n, hn', ids', hids', hs'⟩))
    · rw [if_neg hrec] at h
      exact Except.noConfusion h

/-- C8: whenever the network site-list lookup succeeds, the returned list has
no duplicates, and it contains a site identifier iff that identifier appears
in at least one of the requested networks' lists. -/
theorem get_network_site_list_dedup (data_source varName : String)
    (site_networks : List String)
    (csv : String → String → String → Option (List String))
    (result : List String)
    (h : get_network_site_list data_source varName site_networks csv
      = .ok result) :
    result.Nodup
    ∧ ∀ s, s ∈ result ↔
        ∃ network ∈ site_networks, ∃ ids,
          csv data_source varName network = some ids ∧ s ∈ ids := by
  unfold get_network_site_list at h
  cases hcol : collect_network_sites data_source varName csv site_networks with
  | error e =>
    rw [hcol] at h
    exact Except.noConfusion h
  | ok site_list =>
    rw [hcol] at h
    injection h with h
    subst h
    refine ⟨List.nodup_dedup _, fun s => ?_⟩
    rw [List.mem_dedup]
    exact collect_network_sites_mem data_source varName csv site_networks
      site_list hcol s

/-- Witness for C8: two overlapping networks, `camels = [a, b]` and
`gagesii = [b, c]`, yield each identifier exactly once. -/
theorem get_network_site_list_dedup_witness :
    (["a", "b", "c"] : List String).Nodup
    ∧ ((("b" : String) ∈ (["a", "b", "c"] : List String)) ↔
        ∃ network ∈ (["camels", "gagesii"] : List String), ∃ ids,
          (fun (_ _ n : String) =>
            if n = "camels" then some (["a", "b"] : List String)
            else if n = "gagesii" then some ["b", "c"] else none)
            "usgs_nwis" "streamflow" network = some ids ∧ "b" ∈ ids) :=
  have h := get_network_site_list_dedup "usgs_nwis" "streamflow"
    ["camels", "gagesii"]
    (fun (_ _ n : String) =>
      if n = "camels" then some (["a", "b"] : List String)
      else if n = "gagesii" then some ["b", "c"] else none)
    ["a", "b", "c"] (by decide)
  ⟨h.1, h.2 "b"⟩

/-- A successful network collection requires every requested network to pass
the `assert` against the hard-coded options table. -/
lemma collect_network_sites_ok_recognized (data_source varName : String)
    (csv : String → String → String → Option (List String)) :
    ∀ (site_networks : List String) (site_list : List String),
      collect_network_sites data_source varName csv site_networks
        = .ok site_list →
      ∀ network ∈ site_networks,
        network_recognized data_source varName network = true := by
  intro site_networks
  induction site_networks with
  | nil =>
    intro site_list h n hn
    simp at hn
  | cons network rest ih =>
    intro site_list h n hn
    unfold collect_network_sites at h
    by_cases hrec : network_recognized data_source varName network
    · rw [if_pos hrec] at h
      cases hcsv : csv data_source varName network with
      | none =>
        rw [hcsv] at h
        exact Except.noConfusion h
      | some ids =>
        rw [hcsv] at h
        cases hcol : collect_network_sites data_source varName csv rest with
        | error e =>
          rw [hcol] at h
          exact Except.noConfusion h
        | ok acc =>
          rcases List.mem_cons.mp hn with rfl | hn'
          · exact hrec
          · exact ih acc hcol n hn'
    · rw [if_neg hrec] at h
      exact Except.noConfusion h

/-- One unrecognized network in the request makes the collection loop raise. -/
lemma collect_network_sites_bad_network (data_source varName : String)
    (csv : String → String → String → Option (List String)) :
    ∀ site_networks : List String,
      (∃ network ∈ site_networks,
        network_recognized data_source varName network = false) →
      isError (collect_network_sites data_source varName csv site_networks)
        = true := by
  intro site_networks
  induction site_networks with
  | nil =>
    rintro ⟨n, hn, _⟩
    simp at hn
  | cons network rest ih =>
    rintro ⟨n, hn, hbad⟩
    unfold collect_network_sites
    by_cases hrec : network_recognized data_source varName network
    · rw [if_pos hrec]
      cases hcsv : csv data_source varName network with
      | none => rfl
      | some ids =>
        have hrest : ∃ m ∈ rest,
            network_recognized data_source varName m = false := by
          rcases List.mem_cons.mp hn with rfl | hn'
          · rw [hrec] at hbad
            exact Bool.noConfusion hbad
          · exact ⟨n, hn', hbad⟩
        have hih := ih hrest
        cases hcol : collect_network_sites data_source varName csv rest with
        | error e => rfl
        | ok acc =>
          rw [hcol] at hih
          exact absurd hih (by simp [isError])
    · rw [if_neg hrec]
      rfl

/-- C10: the network site-list lookup succeeds only when every requested
network passes the hard-coded options table — which forces (for a non-empty
request) `data_source = usgs_nwis` and `variable ∈ {streamflow, wtd}` — and it
raises an error as soon as any requested network name is outside the table for
the requested source and variable. -/
theorem network_lookup_restricted (data_source varName : String)
    (site_networks : List String)
    (csv : String → String → String → Option (List String)) :
    (∀ result,
      get_network_site_list data_source varName site_networks csv
        = .ok result →
      (∀ network ∈ site_networks,
        network_recognized data_source varName network = true)
      ∧ (site_networks ≠ [] →
          data_source = "usgs_nwis"
          ∧ (varName = "streamflow" ∨ varName = "wtd")))
    ∧ ((∃ network ∈ site_networks,
          network_recognized data_source varName network = false) →
        isError (get_network_site_list data_source varName site_networks csv)
          = true) := by
  constructor
  · intro result h
    have hok : ∃ site_list,
        collect_network_sites data_source varName csv site_networks
          = .ok site_list := by
      unfold get_network_site_list at h
      cases hcol : collect_network_sites data_source varName csv
          site_networks with
      | error e =>
        rw [hcol] at h
        exact Except.noConfusion h
      | ok l => exact ⟨l, rfl⟩
    obtain ⟨site_list, hcol⟩ := hok
    have hall := collect_network_sites_ok_recognized data_source varName csv
      site_networks site_list hcol
    refine ⟨hall, ?_⟩
    intro hne
    obtain ⟨network, hn⟩ := List.exists_mem_of_ne_nil site_networks hne
    have hrec := hall network hn
    unfold network_recognized at hrec
    cases hl : network_options_lookup data_source varName with
    | none =>
      rw [hl] at hrec
      exact Bool.noConfusion hrec
    | some opts =>
      unfold network_options_lookup at hl
      by_cases hds : data_source = "usgs_nwis"
      · refine ⟨hds, ?_⟩
        rw [if_pos hds] at hl
        by_cases hv1 : varName = "streamflow"
        · exact Or.inl hv1
        · rw [if_neg hv1] at hl
          by_cases hv2 : varName = "wtd"
          · exact Or.inr hv2
          · rw [if_neg hv2] at hl
            exact Option.noConfusion hl
      · rw [if_neg hds] at hl
        exact Option.noConfusion hl
  · intro hbad
    unfold get_network_site_list
    have hih := collect_network_sites_bad_network data_source varName csv
      site_networks hbad
    cases hcol : collect_network_sites data_source varName csv
        site_networks with
    | error e => rfl
    | ok l =>
      rw [hcol] at hih
      exact absurd hih (by simp [isError])

/-- Witness for C10: requesting network `camels` for an AmeriFlux variable
raises. -/
theorem network_lookup_restricted_witness :
    isError (get_network_site_list "ameriflux" "swe" ["camels"]
      (fun _ _ _ => some [])) = true :=
  (network_lookup_restricted "ameriflux" "swe" ["camels"]
    (fun _ _ _ => some [])).2 ⟨"camels", by decide, by decide⟩

end HfPointData
